import Mathlib

/-!
# Verification of the rabbit/food ecology simulation

Shallow embedding of the agent logic of `src/sim_essentials.py`
(classes `Entity`, `Environment`, `Rabbit`, `Food`) together with the
report hooks of `src/sim_statistics.py`.

Modelling conventions:
* Python `float` fields (hunger, nutrition, speed, timeouts, ...) are
  modelled as `ℚ`; grid coordinates and lifespans (Python `int`) as `ℤ`.
* Python object identity (used by `list.remove` and by the `in`
  membership tests) is modelled by the unique monotonically assigned
  entity id (`Entity.count`); entity references held across calls
  (`chosen_partner`, `nearest_food`) are stored as ids and re-resolved
  against the live registries.
* The two sources of randomness (`random.choice` over the eight move
  directions, `random.uniform` in `inherit_with_mutation`) are passed in
  explicitly as oracle values.
* `simpy` process scheduling is modelled by explicit per-tick step
  functions: one call corresponds to one iteration of the corresponding
  `lifetime` loop body (up to and including the `yield timeout` and, for
  rabbits, the post-yield statistics report).  A Python exception
  (`ValueError` from `list.remove`) is modelled with `Except`.
-/

namespace RabbitSim

attribute [local semireducible] Rat.add Rat.mul Rat.sub Rat.inv

/-- Decidable equality for `Except`, to evaluate the embedded fallible
operations on concrete inputs. -/
instance {ε α : Type} [DecidableEq ε] [DecidableEq α] : DecidableEq (Except ε α) :=
  fun a b =>
    match a, b with
    | Except.ok x, Except.ok y =>
      if h : x = y then isTrue (by rw [h])
      else isFalse (fun hc => h (Except.ok.inj hc))
    | Except.error x, Except.error y =>
      if h : x = y then isTrue (by rw [h])
      else isFalse (fun hc => h (Except.error.inj hc))
    | Except.ok _, Except.error _ => isFalse (fun hc => Except.noConfusion hc)
    | Except.error _, Except.ok _ => isFalse (fun hc => Except.noConfusion hc)

/-- The eight compass directions, in source order (`Rabbit.move_locations`). -/
def move_locations : List (Int × Int) :=
  [(0, 1), (0, -1), (1, 0), (-1, 0), (1, 1), (-1, -1), (1, -1), (-1, 1)]

/-- Manhattan distance `|x1-x2| + |y1-y2|` (`Entity.manhattan_distance_between`).
Positions are integers in the source, but the distance is also evaluated at
points of the form `x + move * speed` with a float `speed`
(`Rabbit.find_best_move_towards`), so it is defined over `ℚ`. -/
def manhattan_distance_between (first second : ℚ × ℚ) : ℚ :=
  |first.1 - second.1| + |first.2 - second.2|

/-- State of a `Food` entity (`Food.__init__`). -/
structure FoodState where
  id : ℕ
  x : ℤ
  y : ℤ
  nutrition : ℚ
  lifespan : ℤ
  current_lifespan : ℤ
  decayed : Bool
deriving DecidableEq, Repr

/-- State of a `Rabbit` entity (`Rabbit.__init__`).  `chosen_partner` and
`nearest_food` hold entity ids (Python: object references). -/
structure RabbitState where
  id : ℕ
  x : ℤ
  y : ℤ
  scan_radius : ℚ
  base_hunger : ℚ
  hunger : ℚ
  base_hunger_factor : ℚ
  hunger_to_breed : ℚ
  hunger_fatigue : ℚ
  base_breed_timeout : ℚ
  breeding_reset_speed : ℚ
  breeding_timeout : ℚ
  speed : ℚ
  age : ℚ
  breeding_count : ℕ
  is_alive : Bool
  moving_towards : Bool
  chosen_partner : Option ℕ
  nearest_food : Option ℕ
deriving DecidableEq, Repr

/-- The shared world state (`Environment.__init__`), together with the
static settings the embedded code reads (`GlobalSettings.settings.rabbit.base_speed`,
`time_factor`) and the simulated clock (`simpy_env.now`) and the id supply
(`Entity.count`). -/
structure Env where
  grid_size : ℤ
  base_speed : ℚ
  time_factor : ℚ
  now : ℚ
  rabbits : List RabbitState
  food : List FoodState
  removed_rabbits : ℕ
  eaten_food : ℕ
  decayed_food : ℕ
  nextId : ℕ
deriving DecidableEq, Repr

/-- Ids of the live rabbits, in registry order. -/
def rabbitIds (l : List RabbitState) : List ℕ := l.map RabbitState.id

/-- Ids of the live food items, in registry order. -/
def foodIds (l : List FoodState) : List ℕ := l.map FoodState.id

/-! ## Rabbit helper methods -/

/-- `Rabbit.is_fed`: hunger at or below the breed threshold. -/
def is_fed (r : RabbitState) : Bool :=
  decide (r.hunger ≤ r.hunger_to_breed)

/-- `Rabbit.can_breed_with`: the partner is fed and off cooldown. -/
def can_breed_with (partner : RabbitState) : Bool :=
  is_fed partner && decide (partner.breeding_timeout ≤ 0)

/-- `Rabbit.reached_entity`: current position equals the target position. -/
def reached_entity (r : RabbitState) (entity_x entity_y : ℤ) : Bool :=
  decide ((r.x, r.y) = (entity_x, entity_y))

/-- `Rabbit.adjust_move_if_outside_grid`: if the tentative coordinate on an
axis leaves `[0, grid_size)`, that axis step sign is inverted. -/
def adjust_move_if_outside_grid (grid_size new_x new_y move_dx move_dy : ℤ) :
    ℤ × ℤ :=
  let dx := if new_x < 0 ∨ new_x ≥ grid_size then move_dx * (-1) else move_dx
  let dy := if new_y < 0 ∨ new_y ≥ grid_size then move_dy * (-1) else move_dy
  (dx, dy)

/-- The loop body of `Rabbit.find_best_move_towards`: a candidate direction
replaces the accumulated best move exactly when the Manhattan distance of
`(x + move * speed, y + move * speed)` to the target strictly improves. -/
def best_move_step (r : RabbitState) (other_x other_y : ℤ)
    (acc : (ℤ × ℤ) × ℚ) (move : ℤ × ℤ) : (ℤ × ℤ) × ℚ :=
  let new_x : ℚ := (r.x : ℚ) + (move.1 : ℚ) * r.speed
  let new_y : ℚ := (r.y : ℚ) + (move.2 : ℚ) * r.speed
  let new_distance :=
    manhattan_distance_between (new_x, new_y) ((other_x : ℚ), (other_y : ℚ))
  if new_distance < acc.2 then (move, new_distance) else acc

/-- `Rabbit.find_best_move_towards`: sets `moving_towards`, then scans the
eight directions in order keeping the first strict improvement of the
Manhattan distance (speed scales the compared distance only; the applied
move stays a unit step); the baseline is the current distance with best
move `(0, 0)`. -/
def find_best_move_towards (r : RabbitState) (other_x other_y : ℤ) :
    (ℤ × ℤ) × RabbitState :=
  let r1 := { r with moving_towards := true }
  let min_distance :=
    manhattan_distance_between ((r.x : ℚ), (r.y : ℚ)) ((other_x : ℚ), (other_y : ℚ))
  let best := move_locations.foldl (best_move_step r other_x other_y)
    ((0, 0), min_distance)
  (best.1, r1)

/-- `Rabbit.find_food`: food within `scan_radius` on both axes independently. -/
def find_food (e : Env) (r : RabbitState) : List FoodState :=
  e.food.filter (fun food =>
    decide ((|r.x - food.x| : ℚ) ≤ r.scan_radius) &&
    decide ((|r.y - food.y| : ℚ) ≤ r.scan_radius))

/-- `Rabbit.choose_food`: Python `min` with a Manhattan-distance key, which
keeps the first element among those of minimal key. -/
def choose_food (r : RabbitState) : List FoodState → Option FoodState
  | [] => none
  | f :: fs => some (fs.foldl
      (fun best food =>
        if manhattan_distance_between ((r.x : ℚ), (r.y : ℚ)) ((food.x : ℚ), (food.y : ℚ)) <
           manhattan_distance_between ((r.x : ℚ), (r.y : ℚ)) ((best.x : ℚ), (best.y : ℚ))
        then food else best)
      f)

/-- `Rabbit.find_potential_partners`: other live rabbits within `scan_radius`
on both axes (self excluded by object identity, modelled by id). -/
def find_potential_partners (e : Env) (r : RabbitState) : List RabbitState :=
  e.rabbits.filter (fun p =>
    decide (r.id ≠ p.id) &&
    decide ((|r.x - p.x| : ℚ) ≤ r.scan_radius) &&
    decide ((|r.y - p.y| : ℚ) ≤ r.scan_radius))

/-- `Rabbit.choose_partner`: the first potential partner satisfying
`can_breed_with`, if any. -/
def choose_partner (potential_partners : List RabbitState) : Option RabbitState :=
  potential_partners.find? can_breed_with

/-- `Rabbit.calculate_breeding_timeout`: `base_breed_timeout` reduced by
`max(0, (max(0, -hunger)) // 2)` (Python float floor division). -/
def calculate_breeding_timeout (r : RabbitState) : ℚ :=
  let hunger_bonus : ℚ := max 0 (-r.hunger)
  let timeout_reduction : ℚ := max 0 ((⌊hunger_bonus / 2⌋ : ℤ) : ℚ)
  r.base_breed_timeout - timeout_reduction

/-- `Rabbit.inherit_with_mutation`: arithmetic mean of the parents plus a
mutation drawn by the caller from `uniform(-0.1 * mean, 0.1 * mean)`
(passed in explicitly as `mutation`). -/
def inherit_with_mutation (first_trait second_trait mutation : ℚ) : ℚ :=
  let inherited_trait := (first_trait + second_trait) / 2
  inherited_trait + mutation

/-- `Rabbit.__init__` for the offspring created in `Rabbit.breed`: fresh id
from the world id supply, hunger starts at the inherited `base_hunger`,
`breeding_timeout` 0, `age` the current simulated time. -/
def newRabbit (e : Env) (x y : ℤ)
    (scan_radius base_hunger base_hunger_factor hunger_fatigue hunger_to_breed
     base_breed_timeout breeding_reset_speed speed : ℚ) : RabbitState :=
  { id := e.nextId
    x := x
    y := y
    scan_radius := scan_radius
    base_hunger := base_hunger
    hunger := base_hunger
    base_hunger_factor := base_hunger_factor
    hunger_to_breed := hunger_to_breed
    hunger_fatigue := hunger_fatigue
    base_breed_timeout := base_breed_timeout
    breeding_reset_speed := breeding_reset_speed
    breeding_timeout := 0
    speed := speed
    age := e.now
    breeding_count := 0
    is_alive := true
    moving_towards := false
    chosen_partner := none
    nearest_food := none }

/-- The partner object in `Rabbit.breed` receives a fresh breeding timeout;
the partner is mutated in place in the live registry (unique ids make the
`map` equivalent to the Python single-object mutation). -/
def set_partner_timeout (l : List RabbitState) (pid : ℕ) (t : ℚ) :
    List RabbitState :=
  l.map (fun p => if p.id = pid then { p with breeding_timeout := t } else p)

/-- The offspring built in `Rabbit.breed`: each of the seven heritable traits
is `inherit_with_mutation` of the two parents (mutations `μ 0` … `μ 6`, in
source argument order), the speed is the configured base speed. -/
def breed_offspring (e : Env) (r partner : RabbitState) (μ : ℕ → ℚ) :
    RabbitState :=
  newRabbit e r.x r.y
    (inherit_with_mutation r.scan_radius partner.scan_radius (μ 0))
    (inherit_with_mutation r.base_hunger partner.base_hunger (μ 1))
    (inherit_with_mutation r.base_hunger_factor partner.base_hunger_factor (μ 2))
    (inherit_with_mutation r.hunger_fatigue partner.hunger_fatigue (μ 3))
    (inherit_with_mutation r.hunger_to_breed partner.hunger_to_breed (μ 4))
    (inherit_with_mutation r.base_breed_timeout partner.base_breed_timeout (μ 5))
    (inherit_with_mutation r.breeding_reset_speed partner.breeding_reset_speed (μ 6))
    e.base_speed

/-- `Rabbit.breed`: both participants get fresh breeding timeouts, the
offspring is registered with the world (`Environment.add_rabbit` appends;
the id supply advances), the breeding count of the acting rabbit grows. -/
def breed (e : Env) (r partner : RabbitState) (μ : ℕ → ℚ) :
    Env × RabbitState :=
  let r1 := { r with breeding_timeout := calculate_breeding_timeout r }
  let e1 := { e with rabbits :=
    set_partner_timeout e.rabbits partner.id (calculate_breeding_timeout partner) }
  let child := breed_offspring e1 r1 partner μ
  let e2 := { e1 with rabbits := e1.rabbits ++ [child], nextId := e1.nextId + 1 }
  (e2, { r1 with breeding_count := r1.breeding_count + 1 })

/-- `Rabbit.start_breeding_process`: breed, then clear the partner reference. -/
def start_breeding_process (e : Env) (r partner : RabbitState) (μ : ℕ → ℚ) :
    Env × RabbitState :=
  let p := breed e r partner μ
  (p.1, { p.2 with chosen_partner := none })

/-- `Rabbit.consume_food`: the hunger drops by the nutrition of the food
object first; then `env.food.remove(food)` removes it from the live food set
if present and raises `ValueError` otherwise (Python `list.remove` has no
membership guard); on success the food reference is cleared and the
eaten-food counter grows. -/
def consume_food (e : Env) (r : RabbitState) (food : FoodState) :
    Except String (Env × RabbitState) :=
  let r1 := { r with hunger := r.hunger - food.nutrition }
  if food.id ∈ foodIds e.food then
    Except.ok
      ({ e with food := e.food.eraseP (fun g => g.id == food.id)
                eaten_food := e.eaten_food + 1 },
       { r1 with nearest_food := none })
  else
    Except.error "ValueError"

/-- `Rabbit.remove_rabbit`: check-then-act removal of self from the live
rabbit set; only when present is the rabbit removed, marked dead and the
removed counter incremented. -/
def remove_rabbit (e : Env) (r : RabbitState) : Env × RabbitState :=
  if r.id ∈ rabbitIds e.rabbits then
    ({ e with rabbits := e.rabbits.eraseP (fun p => p.id == r.id)
              removed_rabbits := e.removed_rabbits + 1 },
     { r with is_alive := false })
  else (e, r)

/-- `Rabbit.update_hunger`: accrue `base_hunger_factor`, then remove self at
or above the fatigue threshold. -/
def update_hunger (e : Env) (r : RabbitState) : Env × RabbitState :=
  let r1 := { r with hunger := r.hunger + r.base_hunger_factor }
  if r1.hunger ≥ r1.hunger_fatigue then remove_rabbit e r1 else (e, r1)

/-! ## Rabbit movement -/

/-- `Rabbit.move_to_breed`: if any potential partner exists, the first
breedable one is chosen, remembered, and the move towards it is computed;
otherwise the move is `(0, 0)`. -/
def move_to_breed (e : Env) (r : RabbitState) : (ℤ × ℤ) × RabbitState :=
  match find_potential_partners e r with
  | [] => ((0, 0), r)
  | pp =>
    match choose_partner pp with
    | none => ((0, 0), r)
    | some chosen =>
      if can_breed_with chosen then
        let r1 := { r with chosen_partner := some chosen.id }
        find_best_move_towards r1 chosen.x chosen.y
      else ((0, 0), r)

/-- `Rabbit.move_towards_food`: clear the food reference, scan for nearby
food, choose the Manhattan-nearest one, remember it, and compute the move
towards it; `(0, 0)` when no food is visible. -/
def move_towards_food (e : Env) (r : RabbitState) : (ℤ × ℤ) × RabbitState :=
  let r0 := { r with nearest_food := none }
  match choose_food r0 (find_food e r0) with
  | some nf =>
    let r1 := { r0 with nearest_food := some nf.id }
    find_best_move_towards r1 nf.x nf.y
  | none => ((0, 0), r0)

/-- The branching part of `Rabbit.handle_movement`: breed-seeking when fed
and off cooldown, food seeking otherwise (decrementing a positive cooldown
by `breeding_reset_speed` first). -/
def movement_branch (e : Env) (r : RabbitState) : (ℤ × ℤ) × RabbitState :=
  if is_fed r && decide (r.breeding_timeout ≤ 0) then
    move_to_breed e r
  else
    let r0 :=
      if r.breeding_timeout > 0 then
        { r with breeding_timeout := r.breeding_timeout - r.breeding_reset_speed }
      else r
    move_towards_food e r0

/-- `Rabbit.handle_movement`: run the target-selection branch; a `(0, 0)`
move is replaced by a random direction (`random.choice`, modelled by the
oracle index `randIdx`); the move is then boundary-adjusted and the new
position returned. -/
def handle_movement (e : Env) (r : RabbitState) (randIdx : ℕ) :
    (ℤ × ℤ) × RabbitState :=
  let step := movement_branch e r
  let mv := step.1
  let r1 := step.2
  let mv1 := if mv.1 = 0 ∧ mv.2 = 0 then move_locations.getD (randIdx % 8) (0, 0) else mv
  let mv2 := adjust_move_if_outside_grid e.grid_size (r1.x + mv1.1) (r1.y + mv1.2)
    mv1.1 mv1.2
  ((r1.x + mv2.1, r1.y + mv2.2), r1)

/-! ## Rabbit interaction and one lifetime tick -/

/-- The food half of `Rabbit.handle_interaction` (the `elif` arm): if a food
reference is held and the rabbit stands on its position, the food is
consumed and `moving_towards` cleared.  Returns also the nutrition actually
consumed this tick, if any. -/
def handle_interaction_food (e : Env) (r : RabbitState) :
    Except String (Env × RabbitState × Option ℚ) :=
  match r.nearest_food.bind (fun fid => e.food.find? (fun g => g.id == fid)) with
  | some nf =>
    if reached_entity r nf.x nf.y then
      match consume_food e r nf with
      | Except.error s => Except.error s
      | Except.ok (e1, r1) =>
        Except.ok (e1, { r1 with moving_towards := false }, some nf.nutrition)
    else Except.ok (e, r, none)
  | none => Except.ok (e, r, none)

/-- `Rabbit.handle_interaction`: only while `moving_towards`; a held partner
reference whose position is reached triggers breeding, otherwise a held food
reference whose position is reached triggers consumption. -/
def handle_interaction (e : Env) (r : RabbitState) (μ : ℕ → ℚ) :
    Except String (Env × RabbitState × Option ℚ) :=
  if r.moving_towards then
    match r.chosen_partner.bind (fun pid => e.rabbits.find? (fun p => p.id == pid)) with
    | some cp =>
      if reached_entity r cp.x cp.y then
        let p := start_breeding_process e r cp μ
        Except.ok (p.1, { p.2 with moving_towards := false }, none)
      else handle_interaction_food e r
    | none => handle_interaction_food e r
  else Except.ok (e, r, none)

/-- Result of one executed tick of `Rabbit.lifetime`. -/
structure TickResult where
  env : Env
  rabbit : RabbitState
  consumed : Option ℚ
deriving DecidableEq, Repr

/-- One iteration of the `Rabbit.lifetime` loop body: movement (the returned
coordinates are assigned to the position), interaction, hunger update, the
age update `age += now`, then the one-tick sleep advancing the clock by
`1 * time_factor`.  After the sleep the rabbit reports itself to the
statistics collector; the reported state is the returned `rabbit`. -/
def rabbit_lifetime_step (e : Env) (r : RabbitState) (randIdx : ℕ) (μ : ℕ → ℚ) :
    Except String TickResult :=
  let m := handle_movement e r randIdx
  let r2 := { m.2 with x := m.1.1, y := m.1.2 }
  match handle_interaction e r2 μ with
  | Except.error s => Except.error s
  | Except.ok (e3, r3, consumed) =>
    let u := update_hunger e3 r3
    let r5 := { u.2 with age := u.2.age + u.1.now }
    let e5 := { u.1 with now := u.1.now + 1 * u.1.time_factor }
    Except.ok ⟨e5, r5, consumed⟩

/-- Per-tick oracle: the `random.choice` index and the seven
`inherit_with_mutation` draws of a potential breeding. -/
structure Oracle where
  randIdx : ℕ
  mutation : ℕ → ℚ

/-- The `Rabbit.lifetime` loop, driven for at most `fuel` ticks: while
`is_alive`, run one tick and record the post-sleep state that is reported to
the statistics collector (`update_best_rabbit_stats` and
`update_current_step_rabbit_stats` both receive exactly this state).  The
loop exits once `is_alive` is false; an uncaught exception ends the process
with no report.  Returns the final world, the final rabbit state, and the
list of reported states in order. -/
def rabbitRun (oracle : ℕ → Oracle) : ℕ → Env → RabbitState →
    Env × RabbitState × List RabbitState
  | 0, e, r => (e, r, [])
  | Nat.succ n, e, r =>
    if r.is_alive then
      match rabbit_lifetime_step e r (oracle n).randIdx (oracle n).mutation with
      | Except.error _ => (e, r, [])
      | Except.ok tr =>
        let rest := rabbitRun oracle n tr.env tr.rabbit
        (rest.1, rest.2.1, tr.rabbit :: rest.2.2)
    else (e, r, [])

/-! ## Food lifetime -/

/-- `Food.remove_decayed_food`: check-then-act removal from the live food
set; only when present is the food removed and the decayed counter
incremented. -/
def remove_decayed_food (e : Env) (f : FoodState) : Env :=
  if f.id ∈ foodIds e.food then
    { e with food := e.food.eraseP (fun g => g.id == f.id)
             decayed_food := e.decayed_food + 1 }
  else e

/-- One iteration of the `Food.lifetime` while-body after the one-tick
sleep: halve the nutrition once when `current_lifespan ≤ lifespan / 2`
(`2 * current_lifespan ≤ lifespan` over the integers is the Python real
division condition) and the food has not decayed yet, then decrement the
remaining lifespan. -/
def food_tick_body (f : FoodState) : FoodState :=
  let f1 :=
    if 2 * f.current_lifespan ≤ f.lifespan ∧ f.decayed = false then
      { f with decayed := true, nutrition := f.nutrition / 2 }
    else f
  { f1 with current_lifespan := f1.current_lifespan - 1 }

/-- The `Food.lifetime` loop, driven for at most `fuel` ticks: iterate the
body while `current_lifespan > 0`; when the countdown has ended, remove the
(possibly already consumed) food via `remove_decayed_food` and stop.  The
`simpy.Interrupt` handler in the source is dead code: nothing in the
repository ever interrupts a process. -/
def food_lifetime_run : ℕ → Env → FoodState → Env × FoodState
  | 0, e, f => (e, f)
  | Nat.succ n, e, f =>
    if f.current_lifespan > 0 then
      food_lifetime_run n e (food_tick_body f)
    else (remove_decayed_food e f, f)

/-- The environment component of a successful `consume_food`, and the
unchanged environment on the error path (the raised `ValueError` aborts the
caller before it can observe a world state). -/
def consumeResultEnv (e : Env) (r : RabbitState) (food : FoodState) : Env :=
  match consume_food e r food with
  | Except.ok p => p.1
  | Except.error _ => e

/-- The rabbit component of a successful `consume_food` (on the error path
the unmodified rabbit, for totality). -/
def consumeResultRabbit (e : Env) (r : RabbitState) (food : FoodState) :
    RabbitState :=
  match consume_food e r food with
  | Except.ok p => p.2
  | Except.error _ => r

/-! ## Concrete fixtures used by witnesses and counterexamples -/

/-- A rabbit with the configuration of the §8 foraging scenario, except that
its breed threshold is far below its hunger, so it is never fed. -/
def scenarioRabbit : RabbitState :=
  { id := 0, x := 0, y := 0, scan_radius := 20, base_hunger := 0, hunger := 0,
    base_hunger_factor := 1, hunger_to_breed := -100, hunger_fatigue := 1000,
    base_breed_timeout := 10, breeding_reset_speed := 1, breeding_timeout := 0,
    speed := 1, age := 0, breeding_count := 0, is_alive := true,
    moving_towards := false, chosen_partner := none, nearest_food := none }

/-- The single food item of the §8 foraging scenario, at `(9, 9)`. -/
def scenarioFood : FoodState :=
  { id := 1, x := 9, y := 9, nutrition := 5, lifespan := 100,
    current_lifespan := 100, decayed := false }

/-- The §8 foraging scenario world: `grid_size` 10, one rabbit at `(0, 0)`,
one food at `(9, 9)`. -/
def scenarioEnv : Env :=
  { grid_size := 10, base_speed := 1, time_factor := 1, now := 0,
    rabbits := [scenarioRabbit], food := [scenarioFood], removed_rabbits := 0,
    eaten_food := 0, decayed_food := 0, nextId := 2 }

/-- The §8 scenario exactly as specified: `hunger_to_breed` is 100, so the
rabbit is fed from the start. -/
def scenarioFedRabbit : RabbitState :=
  { scenarioRabbit with hunger_to_breed := 100 }

/-- The fed variant of the scenario world. -/
def scenarioFedEnv : Env :=
  { scenarioEnv with rabbits := [scenarioFedRabbit] }

/-- An oracle that always picks the first move direction and zero mutations. -/
def oracleZ : ℕ → Oracle := fun _ => ⟨0, fun _ => 0⟩

/-- Oracle for the fed-scenario run: the random walk picks `(0, 1)` on the
first tick (remaining fuel 1) and `(0, -1)` on the second (remaining fuel 0). -/
def oracleUpDown : ℕ → Oracle :=
  fun n => if n = 1 then ⟨0, fun _ => 0⟩ else ⟨1, fun _ => 0⟩

/-- A rabbit one hunger accrual away from its fatigue threshold, never fed. -/
def dyingRabbit : RabbitState :=
  { scenarioRabbit with hunger := 10, hunger_fatigue := 11 }

/-- A world holding only `dyingRabbit` and no food. -/
def dyingEnv : Env :=
  { scenarioEnv with rabbits := [dyingRabbit], food := [] }

/-- The tick result of `dyingRabbit`'s death tick. -/
def dyingTick : TickResult :=
  match rabbit_lifetime_step dyingEnv dyingRabbit 0 (fun _ => 0) with
  | Except.ok t => t
  | Except.error _ => ⟨dyingEnv, dyingRabbit, none⟩

/-- A rabbit state that is already dead. -/
def deadRabbit : RabbitState := { scenarioRabbit with is_alive := false }

/-- A fresh food item with lifespan 1. -/
def shortFood : FoodState :=
  { id := 7, x := 3, y := 4, nutrition := 8, lifespan := 1, current_lifespan := 1,
    decayed := false }

/-- A world holding only `shortFood`. -/
def shortFoodEnv : Env :=
  { scenarioEnv with rabbits := [], food := [shortFood] }

/-- A fresh food item with lifespan 4. -/
def mediumFood : FoodState :=
  { shortFood with id := 8, lifespan := 4, current_lifespan := 4 }

/-- A world holding only `mediumFood`. -/
def mediumFoodEnv : Env :=
  { scenarioEnv with rabbits := [], food := [mediumFood] }

/-- A world with no live entities at all. -/
def emptyEnv : Env :=
  { scenarioEnv with rabbits := [], food := [] }

/-- A 1-by-1 grid world holding only the scenario rabbit. -/
def gridOneEnv : Env :=
  { scenarioEnv with grid_size := 1, rabbits := [scenarioRabbit], food := [] }

/-- A rabbit in the middle of its breeding cooldown. -/
def cooldownRabbit : RabbitState :=
  { scenarioRabbit with breeding_timeout := 3 }

/-- The tick result of the scenario rabbit's first tick. -/
def scenarioTick : TickResult :=
  match rabbit_lifetime_step scenarioEnv scenarioRabbit 0 (fun _ => 0) with
  | Except.ok t => t
  | Except.error _ => ⟨scenarioEnv, scenarioRabbit, none⟩

/-- A breeding partner with traits different from the scenario rabbit. -/
def breedPartner : RabbitState :=
  { scenarioRabbit with
    id := 5
    scan_radius := 10
    base_hunger := 4
    base_hunger_factor := 2
    hunger_fatigue := 600
    hunger_to_breed := -50
    base_breed_timeout := 16
    breeding_reset_speed := 3
    speed := 7 }

/-! ## Helper lemmas -/

/-- Removing the first entity with a given id removes the id entirely when
the registry ids are distinct (as the monotonic id supply guarantees). -/
lemma eraseP_id_not_mem {α : Type} (idf : α → ℕ) (i : ℕ) :
    ∀ l : List α, (l.map idf).Nodup →
      i ∉ (l.eraseP (fun a => idf a == i)).map idf := by
  intro l
  induction l with
  | nil => simp
  | cons a t ih =>
    intro hnd
    simp only [List.map_cons, List.nodup_cons] at hnd
    by_cases h : idf a = i
    · rw [List.eraseP_cons_of_pos (by simp [h])]
      subst h
      exact hnd.1
    · rw [List.eraseP_cons_of_neg (by simp [h])]
      simp only [List.map_cons, List.mem_cons]
      rintro (rfl | hm)
      · exact h rfl
      · exact ih hnd.2 hm

/-- `food_tick_body` only mutates decay state, never the identity or the
position or the total lifespan. -/
lemma food_tick_body_fields (f : FoodState) :
    (food_tick_body f).id = f.id ∧ (food_tick_body f).lifespan = f.lifespan ∧
    (food_tick_body f).current_lifespan = f.current_lifespan - 1 := by
  unfold food_tick_body
  split <;> simp

/-- A food process whose id is no longer registered never changes the world
again: the in-loop body touches only the food itself and the final
`remove_decayed_food` is a membership-guarded no-op. -/
lemma food_run_env_of_not_mem (n : ℕ) (e : Env) :
    ∀ f : FoodState, f.id ∉ foodIds e.food → (food_lifetime_run n e f).1 = e := by
  induction n with
  | zero => intro f _; rfl
  | succ n ih =>
    intro f h
    simp only [food_lifetime_run]
    split
    · exact ih _ (by rw [(food_tick_body_fields f).1]; exact h)
    · simp [remove_decayed_food, h]

/-! ## C1 — removal discipline -/

/-- C1 (counterexample): the claim that every removal — including food
consumption — is a membership-guarded no-op on an absent entity is false:
`Rabbit.consume_food` has no membership check, so consuming a food item
that is no longer in the live food set raises `ValueError` instead of
completing as a no-op. -/
theorem consume_food_not_guarded_cex :
    scenarioFood.id ∉ foodIds emptyEnv.food ∧
    consume_food emptyEnv scenarioRabbit scenarioFood = Except.error "ValueError" := by
  decide

/-- C1 (amended): rabbit death (`Rabbit.remove_rabbit`) and food decay
(`Food.remove_decayed_food`) removals are check-then-act — on an entity
absent from its live set they are complete no-ops, changing neither the
live sets nor the counters nor the entity; food consumption
(`Rabbit.consume_food`) is the exception: on an absent food it raises
`ValueError` instead of acting as a no-op. -/
theorem removal_check_then_act (e : Env) (r : RabbitState) (f : FoodState)
    (hr : r.id ∉ rabbitIds e.rabbits) (hf : f.id ∉ foodIds e.food) :
    remove_rabbit e r = (e, r) ∧
    remove_decayed_food e f = e ∧
    consume_food e r f = Except.error "ValueError" := by
  refine ⟨?_, ?_, ?_⟩ <;>
    simp [remove_rabbit, remove_decayed_food, consume_food, hr, hf]

/-- C1 witness: the amended theorem applied to the empty world. -/
theorem removal_check_then_act_witness :
    scenarioRabbit.id ∉ rabbitIds emptyEnv.rabbits ∧
    scenarioFood.id ∉ foodIds emptyEnv.food ∧
    (remove_rabbit emptyEnv scenarioRabbit = (emptyEnv, scenarioRabbit) ∧
     remove_decayed_food emptyEnv scenarioFood = emptyEnv ∧
     consume_food emptyEnv scenarioRabbit scenarioFood = Except.error "ValueError") :=
  ⟨by decide, by decide,
   removal_check_then_act emptyEnv scenarioRabbit scenarioFood (by decide) (by decide)⟩

/-! ## C2 — consumption removes the food and defuses its decay countdown -/

/-- C2: consuming a live food item removes it from the live food set within
`consume_food` itself, and the food's still-running decay countdown
(`Food.lifetime`, resumed any number of further ticks, whatever its
remaining state `fs`) never changes the world again: no second removal and
no `decayed_food` increment ever happens for it. -/
theorem consumed_food_decay_noop (e : Env) (r : RabbitState) (f fs : FoodState)
    (n : ℕ) (hnd : (foodIds e.food).Nodup) (hmem : f.id ∈ foodIds e.food)
    (hid : fs.id = f.id) :
    consume_food e r f =
      Except.ok (consumeResultEnv e r f, consumeResultRabbit e r f) ∧
    (consumeResultEnv e r f).eaten_food = e.eaten_food + 1 ∧
    f.id ∉ foodIds (consumeResultEnv e r f).food ∧
    (consumeResultEnv e r f).decayed_food = e.decayed_food ∧
    (food_lifetime_run n (consumeResultEnv e r f) fs).1 = consumeResultEnv e r f := by
  have hok : consume_food e r f =
      Except.ok
        ({ e with food := e.food.eraseP (fun g => g.id == f.id)
                  eaten_food := e.eaten_food + 1 },
         { r with hunger := r.hunger - f.nutrition, nearest_food := none }) := by
    simp [consume_food, hmem]
  have henv : consumeResultEnv e r f =
      { e with food := e.food.eraseP (fun g => g.id == f.id)
               eaten_food := e.eaten_food + 1 } := by
    simp [consumeResultEnv, hok]
  have hnot : f.id ∉ foodIds (consumeResultEnv e r f).food := by
    rw [henv]
    exact eraseP_id_not_mem FoodState.id f.id e.food hnd
  refine ⟨?_, ?_, hnot, ?_, ?_⟩
  · rw [hok, henv]
    simp [consumeResultRabbit, hok]
  · rw [henv]
  · rw [henv]
  · exact food_run_env_of_not_mem n _ fs (by rw [hid]; exact hnot)

/-- C2 witness: the theorem applied to the foraging-scenario world, with the
consumed food's countdown resumed for five further ticks. -/
theorem consumed_food_decay_noop_witness :
    (foodIds scenarioEnv.food).Nodup ∧
    scenarioFood.id ∈ foodIds scenarioEnv.food ∧
    (consume_food scenarioEnv scenarioRabbit scenarioFood =
       Except.ok (consumeResultEnv scenarioEnv scenarioRabbit scenarioFood,
                  consumeResultRabbit scenarioEnv scenarioRabbit scenarioFood) ∧
     (consumeResultEnv scenarioEnv scenarioRabbit scenarioFood).eaten_food =
       scenarioEnv.eaten_food + 1 ∧
     scenarioFood.id ∉
       foodIds (consumeResultEnv scenarioEnv scenarioRabbit scenarioFood).food ∧
     (consumeResultEnv scenarioEnv scenarioRabbit scenarioFood).decayed_food =
       scenarioEnv.decayed_food ∧
     (food_lifetime_run 5 (consumeResultEnv scenarioEnv scenarioRabbit scenarioFood)
        scenarioFood).1 =
       consumeResultEnv scenarioEnv scenarioRabbit scenarioFood) :=
  ⟨by decide, by decide,
   consumed_food_decay_noop scenarioEnv scenarioRabbit scenarioFood scenarioFood 5
     (by decide) (by decide) (by decide)⟩

/-! ## C4 — the nutrition halving schedule -/

/-- `food_tick_body` in closed form. -/
lemma food_tick_body_eq (f : FoodState) :
    food_tick_body f =
      if 2 * f.current_lifespan ≤ f.lifespan ∧ f.decayed = false then
        { f with decayed := true, nutrition := f.nutrition / 2,
                 current_lifespan := f.current_lifespan - 1 }
      else { f with current_lifespan := f.current_lifespan - 1 } := by
  unfold food_tick_body
  split <;> rfl

/-- Characterization of the decay loop: starting from a state that has run
`j` ticks from fresh (`current_lifespan = L - j`, decayed exactly when some
earlier tick satisfied the halving condition), `k` further in-range ticks
land at the state of `j + k` ticks.  The halving condition of tick `t`
(1-based, pre-decrement remaining `L - (t - 1)`) is `L ≤ 2 * (t - 1)`. -/
lemma food_run_schedule_aux (e : Env) (L : ℤ) (n0 : ℚ) :
    ∀ (k j : ℕ), ((j + k : ℕ) : ℤ) ≤ L →
      ∀ f : FoodState, f.lifespan = L → f.current_lifespan = L - (j : ℤ) →
        (f.decayed = true ↔ (1 ≤ (j : ℤ) ∧ L ≤ 2 * ((j : ℤ) - 1))) →
        f.nutrition =
          (if 1 ≤ (j : ℤ) ∧ L ≤ 2 * ((j : ℤ) - 1) then n0 / 2 else n0) →
        ((food_lifetime_run k e f).2.lifespan = L ∧
         (food_lifetime_run k e f).2.current_lifespan = L - ((j + k : ℕ) : ℤ) ∧
         ((food_lifetime_run k e f).2.decayed = true ↔
            (1 ≤ ((j + k : ℕ) : ℤ) ∧ L ≤ 2 * (((j + k : ℕ) : ℤ) - 1))) ∧
         (food_lifetime_run k e f).2.nutrition =
           (if 1 ≤ ((j + k : ℕ) : ℤ) ∧ L ≤ 2 * (((j + k : ℕ) : ℤ) - 1)
            then n0 / 2 else n0)) := by
  intro k
  induction k with
  | zero =>
    intro j _ f hL hc hd hn
    exact ⟨hL, hc, hd, hn⟩
  | succ k ih =>
    intro j hjk f hL hc hd hn
    have hpos : f.current_lifespan > 0 := by
      rw [hc]
      push_cast at hjk ⊢
      omega
    have hrun : food_lifetime_run (k + 1) e f =
        food_lifetime_run k e (food_tick_body f) := by
      simp [food_lifetime_run, hpos]
    have hjk1 : (((j + 1) + k : ℕ) : ℤ) ≤ L := by push_cast at hjk ⊢; omega
    have hLfields := food_tick_body_fields f
    have harg1 : (food_tick_body f).lifespan = L := by rw [hLfields.2.1]; exact hL
    have harg2 : (food_tick_body f).current_lifespan = L - ((j + 1 : ℕ) : ℤ) := by
      rw [hLfields.2.2, hc]; push_cast; ring
    rcases hbc : f.decayed with hdf | hdf
    · -- the food has not decayed yet
      have hnj : ¬ (1 ≤ (j : ℤ) ∧ L ≤ 2 * ((j : ℤ) - 1)) := by
        intro hcontra
        rw [hd.mpr hcontra] at hbc
        exact Bool.noConfusion hbc
      have hn0 : f.nutrition = n0 := by rw [hn, if_neg hnj]
      by_cases hcond : 2 * f.current_lifespan ≤ f.lifespan
      · -- this is the halving tick
        have hL2j : L ≤ 2 * (j : ℤ) := by rw [hc, hL] at hcond; omega
        have hbd : (food_tick_body f).decayed = true := by
          rw [food_tick_body_eq, if_pos ⟨hcond, hbc⟩]
        have hbn : (food_tick_body f).nutrition = f.nutrition / 2 := by
          rw [food_tick_body_eq, if_pos ⟨hcond, hbc⟩]
        have harg3 : ((food_tick_body f).decayed = true ↔
            (1 ≤ ((j + 1 : ℕ) : ℤ) ∧ L ≤ 2 * (((j + 1 : ℕ) : ℤ) - 1))) := by
          rw [hbd]
          constructor
          · intro _; push_cast; omega
          · intro _; rfl
        have harg4 : (food_tick_body f).nutrition =
            (if 1 ≤ ((j + 1 : ℕ) : ℤ) ∧ L ≤ 2 * (((j + 1 : ℕ) : ℤ) - 1)
             then n0 / 2 else n0) := by
          rw [hbn, hn0, if_pos (by push_cast; omega)]
        have h := ih (j + 1) hjk1 (food_tick_body f) harg1 harg2 harg3 harg4
        have heq : (j + 1) + k = j + (k + 1) := by omega
        rw [heq] at h
        rw [hrun]
        exact h
      · -- before the halving tick
        have hL2j : ¬ (L ≤ 2 * (j : ℤ)) := by rw [hc, hL] at hcond; omega
        have hcn : ¬ (2 * f.current_lifespan ≤ f.lifespan ∧ f.decayed = false) := by
          intro hcontra; exact hcond hcontra.1
        have hbd : (food_tick_body f).decayed = f.decayed := by
          rw [food_tick_body_eq, if_neg hcn]
        have hbn : (food_tick_body f).nutrition = f.nutrition := by
          rw [food_tick_body_eq, if_neg hcn]
        have harg3 : ((food_tick_body f).decayed = true ↔
            (1 ≤ ((j + 1 : ℕ) : ℤ) ∧ L ≤ 2 * (((j + 1 : ℕ) : ℤ) - 1))) := by
          rw [hbd, hbc]
          constructor
          · intro hcontra; exact Bool.noConfusion hcontra
          · intro hcontra; exfalso; push_cast at hcontra; omega
        have harg4 : (food_tick_body f).nutrition =
            (if 1 ≤ ((j + 1 : ℕ) : ℤ) ∧ L ≤ 2 * (((j + 1 : ℕ) : ℤ) - 1)
             then n0 / 2 else n0) := by
          rw [hbn, hn0, if_neg (by push_cast; omega)]
        have h := ih (j + 1) hjk1 (food_tick_body f) harg1 harg2 harg3 harg4
        have heq : (j + 1) + k = j + (k + 1) := by omega
        rw [heq] at h
        rw [hrun]
        exact h
    · -- the food has already decayed: the flag blocks any further halving
      have hj1 : 1 ≤ (j : ℤ) ∧ L ≤ 2 * ((j : ℤ) - 1) := hd.mp hbc
      have hcn : ¬ (2 * f.current_lifespan ≤ f.lifespan ∧ f.decayed = false) := by
        intro hcontra
        rw [hbc] at hcontra
        exact Bool.noConfusion hcontra.2
      have hbd : (food_tick_body f).decayed = f.decayed := by
        rw [food_tick_body_eq, if_neg hcn]
      have hbn : (food_tick_body f).nutrition = f.nutrition := by
        rw [food_tick_body_eq, if_neg hcn]
      have harg3 : ((food_tick_body f).decayed = true ↔
          (1 ≤ ((j + 1 : ℕ) : ℤ) ∧ L ≤ 2 * (((j + 1 : ℕ) : ℤ) - 1))) := by
        rw [hbd, hbc]
        constructor
        · intro _; push_cast; omega
        · intro _; rfl
      have harg4 : (food_tick_body f).nutrition =
          (if 1 ≤ ((j + 1 : ℕ) : ℤ) ∧ L ≤ 2 * (((j + 1 : ℕ) : ℤ) - 1)
           then n0 / 2 else n0) := by
        rw [hbn, hn, if_pos hj1, if_pos (by push_cast; omega)]
      have h := ih (j + 1) hjk1 (food_tick_body f) harg1 harg2 harg3 harg4
      have heq : (j + 1) + k = j + (k + 1) := by omega
      rw [heq] at h
      rw [hrun]
      exact h

/-- C4 (counterexample): a fresh food with lifespan 1 lives out its entire
lifetime (it is removed by decay, incrementing the decayed counter) without
its nutrition ever being halved — no tick has pre-decrement remaining
lifespan at most half the lifespan, so the halving count over the whole
lifetime is zero, not exactly one. -/
theorem food_lifespan_one_never_halved_cex :
    (food_lifetime_run 3 shortFoodEnv shortFood).2.nutrition = 8 ∧
    (food_lifetime_run 3 shortFoodEnv shortFood).2.decayed = false ∧
    (food_lifetime_run 3 shortFoodEnv shortFood).1.decayed_food = 1 ∧
    (food_lifetime_run 3 shortFoodEnv shortFood).1.food = [] := by
  decide

/-- C4 (amended): for a fresh food item, after `k` in-range ticks of the
decay loop, the decayed flag is set exactly when some tick `t ≤ k` had its
pre-decrement remaining lifespan at most `lifespan / 2` (equivalently
`lifespan ≤ 2 * (t - 1)`), and the nutrition is the original halved exactly
once from the first such tick on, and untouched before; hence nutrition is
halved at most once (exactly once if the food survives to see such a tick,
which happens iff `lifespan ≥ 2`; a food with `lifespan ≤ 1` is never
halved). -/
theorem food_nutrition_halving_schedule (e : Env) (f : FoodState) (k : ℕ)
    (hfresh : f.current_lifespan = f.lifespan) (hdec : f.decayed = false)
    (hk : (k : ℤ) ≤ f.lifespan) :
    ((food_lifetime_run k e f).2.decayed = true ↔
       (1 ≤ (k : ℤ) ∧ f.lifespan ≤ 2 * ((k : ℤ) - 1))) ∧
    (food_lifetime_run k e f).2.nutrition =
      (if 1 ≤ (k : ℤ) ∧ f.lifespan ≤ 2 * ((k : ℤ) - 1) then f.nutrition / 2
       else f.nutrition) ∧
    (food_lifetime_run k e f).2.current_lifespan = f.lifespan - (k : ℤ) := by
  have hcnd : ¬ (1 ≤ ((0 : ℕ) : ℤ) ∧ f.lifespan ≤ 2 * (((0 : ℕ) : ℤ) - 1)) := by
    push_cast
    omega
  have h := food_run_schedule_aux e f.lifespan f.nutrition k 0
    (by rw [Nat.zero_add]; exact hk) f rfl (by simp [hfresh])
    (by
      rw [hdec]
      constructor
      · intro hcontra; exact Bool.noConfusion hcontra
      · intro hcontra; exact absurd hcontra hcnd)
    (by rw [if_neg hcnd])
  rw [Nat.zero_add] at h
  exact ⟨h.2.2.1, h.2.2.2, h.2.1⟩

/-- C4 witness: the schedule theorem applied to a lifespan-4 food after 3
ticks: `4 ≤ 2 * (3 - 1)` holds first at tick 3, where the nutrition is
halved and the flag set. -/
theorem food_nutrition_halving_schedule_witness :
    (mediumFood.current_lifespan = mediumFood.lifespan ∧
     mediumFood.decayed = false ∧ ((3 : ℕ) : ℤ) ≤ mediumFood.lifespan) ∧
    (((food_lifetime_run 3 mediumFoodEnv mediumFood).2.decayed = true ↔
        (1 ≤ ((3 : ℕ) : ℤ) ∧ mediumFood.lifespan ≤ 2 * (((3 : ℕ) : ℤ) - 1))) ∧
     (food_lifetime_run 3 mediumFoodEnv mediumFood).2.nutrition =
       (if 1 ≤ ((3 : ℕ) : ℤ) ∧ mediumFood.lifespan ≤ 2 * (((3 : ℕ) : ℤ) - 1)
        then mediumFood.nutrition / 2 else mediumFood.nutrition) ∧
     (food_lifetime_run 3 mediumFoodEnv mediumFood).2.current_lifespan =
       mediumFood.lifespan - ((3 : ℕ) : ℤ)) :=
  ⟨⟨by decide, by decide, by decide⟩,
   food_nutrition_halving_schedule mediumFoodEnv mediumFood 3 (by decide) (by decide)
     (by decide)⟩

/-! ## C3 — death, removal and the post-death report -/

/-- A rabbit whose `is_alive` flag is down never runs another tick: the
lifetime loop exits immediately, leaving the world, the rabbit state and
the report trace untouched. -/
lemma rabbitRun_dead (oracle : ℕ → Oracle) (n : ℕ) (e : Env) (r : RabbitState)
    (hd : r.is_alive = false) : rabbitRun oracle n e r = (e, r, []) := by
  cases n with
  | zero => rfl
  | succ n => simp [rabbitRun, hd]

/-- C3 (counterexample): a rabbit that dies on its first tick (hunger 10,
accrual 1, fatigue threshold 11) is removed from the live set and the
removed counter is incremented within that tick — but the claim's "never
again reported" part is false: the reports trace of the run contains
exactly one entry, the rabbit's post-death state, reported at the death
tick's report point. -/
theorem death_tick_report_cex :
    (rabbitRun oracleZ 3 dyingEnv dyingRabbit).2.2.map RabbitState.is_alive = [false] ∧
    (rabbitRun oracleZ 3 dyingEnv dyingRabbit).1.removed_rabbits = 1 ∧
    (rabbitRun oracleZ 3 dyingEnv dyingRabbit).1.rabbits = [] := by
  decide

/-- C3 (amended): when a rabbit's hunger reaches its fatigue threshold on a
tick, `update_hunger` removes it from the live rabbit set, marks it
not-alive and increments the removed counter within that same tick; the
lifetime loop of a dead rabbit never resumes (no position, hunger or world
change, and no report, whatever fuel remains); however the death tick
itself still completes, so the dying rabbit is reported to the statistics
collector exactly once more, at the death tick's post-sleep report point,
and never after that. -/
theorem death_removal_and_final_report :
    (∀ (oracle : ℕ → Oracle) (n : ℕ) (e : Env) (r : RabbitState),
       r.is_alive = false → rabbitRun oracle n e r = (e, r, [])) ∧
    (∀ (e : Env) (r : RabbitState),
       (rabbitIds e.rabbits).Nodup →
       r.id ∈ rabbitIds e.rabbits →
       r.hunger + r.base_hunger_factor ≥ r.hunger_fatigue →
       (update_hunger e r).2.is_alive = false ∧
       (update_hunger e r).2.hunger = r.hunger + r.base_hunger_factor ∧
       (update_hunger e r).1.removed_rabbits = e.removed_rabbits + 1 ∧
       r.id ∉ rabbitIds (update_hunger e r).1.rabbits) ∧
    (∀ (oracle : ℕ → Oracle) (n : ℕ) (e : Env) (r : RabbitState) (tr : TickResult),
       r.is_alive = true →
       rabbit_lifetime_step e r (oracle n).randIdx (oracle n).mutation = Except.ok tr →
       tr.rabbit.is_alive = false →
       rabbitRun oracle (n + 1) e r = (tr.env, tr.rabbit, [tr.rabbit])) := by
  refine ⟨rabbitRun_dead, ?_, ?_⟩
  · intro e r hnd hmem hge
    have hg2 : ({ r with hunger := r.hunger + r.base_hunger_factor } :
        RabbitState).hunger ≥
        ({ r with hunger := r.hunger + r.base_hunger_factor } :
        RabbitState).hunger_fatigue := hge
    have hm2 : ({ r with hunger := r.hunger + r.base_hunger_factor } :
        RabbitState).id ∈ rabbitIds e.rabbits := hmem
    unfold update_hunger remove_rabbit
    rw [if_pos hg2, if_pos hm2]
    exact ⟨rfl, rfl, rfl, eraseP_id_not_mem RabbitState.id r.id e.rabbits hnd⟩
  · intro oracle n e r tr halive hstep hdead
    simp only [rabbitRun, halive, if_true, hstep]
    rw [rabbitRun_dead oracle n tr.env tr.rabbit hdead]

/-- C3 witness: the amended theorem applied to an already-dead rabbit, to
the dying rabbit's death tick, and to the full run around it. -/
theorem death_removal_and_final_report_witness :
    (rabbitRun oracleZ 2 scenarioEnv deadRabbit = (scenarioEnv, deadRabbit, [])) ∧
    ((update_hunger dyingEnv dyingRabbit).2.is_alive = false ∧
     (update_hunger dyingEnv dyingRabbit).2.hunger =
       dyingRabbit.hunger + dyingRabbit.base_hunger_factor ∧
     (update_hunger dyingEnv dyingRabbit).1.removed_rabbits =
       dyingEnv.removed_rabbits + 1 ∧
     dyingRabbit.id ∉ rabbitIds (update_hunger dyingEnv dyingRabbit).1.rabbits) ∧
    (rabbitRun oracleZ 3 dyingEnv dyingRabbit =
       (dyingTick.env, dyingTick.rabbit, [dyingTick.rabbit])) :=
  ⟨death_removal_and_final_report.1 oracleZ 2 scenarioEnv deadRabbit (by decide),
   death_removal_and_final_report.2.1 dyingEnv dyingRabbit (by decide) (by decide)
     (by decide),
   death_removal_and_final_report.2.2 oracleZ 2 dyingEnv dyingRabbit dyingTick
     (by decide) (by decide) (by decide)⟩

/-! ## C8 — the age update -/

/-- A rabbit alone in an empty world (no food, no partners), created at
simulated time 0 with `time_factor` 1. -/
def soloEnv : Env :=
  { scenarioEnv with rabbits := [scenarioRabbit], food := [] }

/-- C8: the source line `self.age += self.env.simpy_env.now` adds the
absolute simulated clock value, not the elapsed tick duration: after two
ticks from creation at time 0 with `time_factor` 1 the rabbit's age is
`0 + 0 + 1 = 1`, while the total simulated time since its creation is 2.
The age never tracks elapsed time (after `k` ticks it is
`0 + 1 + ... + (k-1)`). -/
theorem age_update_uses_absolute_time :
    scenarioRabbit.age = 0 ∧ soloEnv.now = 0 ∧ soloEnv.time_factor = 1 ∧
    (rabbitRun oracleZ 2 soloEnv scenarioRabbit).1.now = 2 ∧
    (rabbitRun oracleZ 2 soloEnv scenarioRabbit).2.1.age = 1 := by
  decide

/-! ## C9 — the foraging scenario -/

/-- C9 (counterexample): in the scenario exactly as claimed
(`hunger_to_breed` 100, so the rabbit is fed), the rabbit takes the
breeding branch of `handle_movement`, finds no partner, and random-walks:
under the random choices up-then-down its reported positions are
`(0, 1)` then back to `(0, 0)` — the Manhattan distance to `(9, 9)` goes
`18, 17, 18`, not strictly decreasing — and it never targets the food
(`moving_towards` stays false, `nearest_food` stays `none`), so nothing is
eaten. -/
theorem fed_rabbit_random_walk_cex :
    (rabbitRun oracleUpDown 2 scenarioFedEnv scenarioFedRabbit).2.2.map
      (fun s => (s.x, s.y)) = [(0, 1), (0, 0)] ∧
    (rabbitRun oracleUpDown 2 scenarioFedEnv scenarioFedRabbit).1.eaten_food = 0 ∧
    (rabbitRun oracleUpDown 2 scenarioFedEnv scenarioFedRabbit).1.food =
      [scenarioFood] ∧
    (rabbitRun oracleUpDown 2 scenarioFedEnv scenarioFedRabbit).2.1.moving_towards
      = false ∧
    (rabbitRun oracleUpDown 2 scenarioFedEnv scenarioFedRabbit).2.1.nearest_food
      = none := by
  decide

set_option maxRecDepth 40000 in
/-- C9 (amended): in the same scenario but with the rabbit NOT fed (hunger
above its breed threshold), it targets the food every tick: over 9 ticks
its reported Manhattan distances to `(9, 9)` are `16, 14, ..., 0` —
strictly decreasing from the initial 18 — it reaches `(9, 9)`, and the food
is consumed there: the live food set becomes empty and `eaten_food` is 1. -/
theorem hungry_rabbit_reaches_food :
    (rabbitRun oracleZ 9 scenarioEnv scenarioRabbit).2.2.map
      (fun s => |9 - s.x| + |9 - s.y|) = [16, 14, 12, 10, 8, 6, 4, 2, 0] ∧
    (rabbitRun oracleZ 9 scenarioEnv scenarioRabbit).2.1.x = 9 ∧
    (rabbitRun oracleZ 9 scenarioEnv scenarioRabbit).2.1.y = 9 ∧
    (rabbitRun oracleZ 9 scenarioEnv scenarioRabbit).1.food = [] ∧
    (rabbitRun oracleZ 9 scenarioEnv scenarioRabbit).1.eaten_food = 1 := by
  decide

/-! ## Movement lemmas -/

/-- `find_best_move_towards` only sets `moving_towards` on the rabbit. -/
lemma find_best_move_towards_rabbit (r : RabbitState) (ox oy : ℤ) :
    (find_best_move_towards r ox oy).2 = { r with moving_towards := true } := rfl

/-- `move_to_breed` leaves the rabbit unchanged, or records a chosen partner
and sets `moving_towards`. -/
lemma move_to_breed_rabbit (e : Env) (r : RabbitState) :
    (move_to_breed e r).2 = r ∨
    ∃ pid, (move_to_breed e r).2 =
      { r with chosen_partner := some pid, moving_towards := true } := by
  cases hp : find_potential_partners e r with
  | nil => left; simp [move_to_breed, hp]
  | cons a t =>
    cases hcp : choose_partner (a :: t) with
    | none => left; simp [move_to_breed, hp, hcp]
    | some chosen =>
      by_cases hb : can_breed_with chosen = true
      · right
        exact ⟨chosen.id, by simp [move_to_breed, hp, hcp, hb,
          find_best_move_towards_rabbit]⟩
      · left; simp [move_to_breed, hp, hcp, hb]

/-- `move_towards_food` clears the food reference, or records the chosen
food and sets `moving_towards`. -/
lemma move_towards_food_rabbit (e : Env) (r : RabbitState) :
    (move_towards_food e r).2 = { r with nearest_food := none } ∨
    ∃ fid, (move_towards_food e r).2 =
      { r with nearest_food := some fid, moving_towards := true } := by
  cases hc : choose_food { r with nearest_food := none }
      (find_food e { r with nearest_food := none }) with
  | none => left; simp [move_towards_food, hc]
  | some nf =>
    right
    exact ⟨nf.id, by simp [move_towards_food, hc, find_best_move_towards_rabbit]⟩

/-- The target-selection branch only ever touches the breeding timeout, the
partner and food references and the `moving_towards` flag. -/
lemma movement_branch_rabbit_cases (e : Env) (r : RabbitState) :
    ∃ (bt : ℚ) (cp nf : Option ℕ) (mt : Bool),
      (movement_branch e r).2 =
        { r with breeding_timeout := bt, chosen_partner := cp,
                 nearest_food := nf, moving_towards := mt } := by
  by_cases hfed : (is_fed r && decide (r.breeding_timeout ≤ 0)) = true
  · rcases move_to_breed_rabbit e r with h | ⟨pid, h⟩
    · exact ⟨r.breeding_timeout, r.chosen_partner, r.nearest_food,
        r.moving_towards, by simp only [movement_branch, if_pos hfed, h]⟩
    · exact ⟨r.breeding_timeout, some pid, r.nearest_food, true,
        by simp only [movement_branch, if_pos hfed, h]⟩
  · by_cases ht : r.breeding_timeout > 0
    · rcases move_towards_food_rabbit e
        { r with breeding_timeout := r.breeding_timeout - r.breeding_reset_speed }
        with h | ⟨fid, h⟩
      · exact ⟨r.breeding_timeout - r.breeding_reset_speed, r.chosen_partner,
          none, r.moving_towards,
          by simp only [movement_branch, if_neg hfed, if_pos ht, h]⟩
      · exact ⟨r.breeding_timeout - r.breeding_reset_speed, r.chosen_partner,
          some fid, true,
          by simp only [movement_branch, if_neg hfed, if_pos ht, h]⟩
    · rcases move_towards_food_rabbit e r with h | ⟨fid, h⟩
      · exact ⟨r.breeding_timeout, r.chosen_partner, none, r.moving_towards,
          by simp only [movement_branch, if_neg hfed, if_neg ht, h]⟩
      · exact ⟨r.breeding_timeout, r.chosen_partner, some fid, true,
          by simp only [movement_branch, if_neg hfed, if_neg ht, h]⟩

/-- The rabbit state returned by `handle_movement` is the branch result. -/
lemma handle_movement_rabbit (e : Env) (r : RabbitState) (i : ℕ) :
    (handle_movement e r i).2 = (movement_branch e r).2 := rfl

/-- The accumulated best move of the direction scan is the initial one or a
scanned direction. -/
lemma best_move_mem_aux (r : RabbitState) (ox oy : ℤ) :
    ∀ (l : List (ℤ × ℤ)) (acc : (ℤ × ℤ) × ℚ),
      (l.foldl (best_move_step r ox oy) acc).1 = acc.1 ∨
      (l.foldl (best_move_step r ox oy) acc).1 ∈ l := by
  intro l
  induction l with
  | nil => intro acc; exact Or.inl rfl
  | cons m t ih =>
    intro acc
    rw [List.foldl_cons]
    rcases ih (best_move_step r ox oy acc m) with h | h
    · rw [h]
      simp only [best_move_step]
      split
      · exact Or.inr (List.mem_cons_self _ _)
      · exact Or.inl rfl
    · exact Or.inr (List.mem_cons_of_mem _ h)

/-- The move of `find_best_move_towards` is `(0, 0)` or a compass direction. -/
lemma find_best_move_unit (r : RabbitState) (ox oy : ℤ) :
    (find_best_move_towards r ox oy).1 = (0, 0) ∨
    (find_best_move_towards r ox oy).1 ∈ move_locations :=
  best_move_mem_aux r ox oy move_locations _

/-- The move of `move_to_breed` is `(0, 0)` or a compass direction. -/
lemma move_to_breed_move (e : Env) (r : RabbitState) :
    (move_to_breed e r).1 = (0, 0) ∨ (move_to_breed e r).1 ∈ move_locations := by
  cases hp : find_potential_partners e r with
  | nil => left; simp [move_to_breed, hp]
  | cons a t =>
    cases hcp : choose_partner (a :: t) with
    | none => left; simp [move_to_breed, hp, hcp]
    | some chosen =>
      by_cases hb : can_breed_with chosen = true
      · have heq : (move_to_breed e r).1 =
            (find_best_move_towards { r with chosen_partner := some chosen.id }
              chosen.x chosen.y).1 := by
          simp [move_to_breed, hp, hcp, hb]
        rw [heq]
        exact find_best_move_unit _ _ _
      · left; simp [move_to_breed, hp, hcp, hb]

/-- The move of `move_towards_food` is `(0, 0)` or a compass direction. -/
lemma move_towards_food_move (e : Env) (r : RabbitState) :
    (move_towards_food e r).1 = (0, 0) ∨
    (move_towards_food e r).1 ∈ move_locations := by
  cases hc : choose_food { r with nearest_food := none }
      (find_food e { r with nearest_food := none }) with
  | none => left; simp [move_towards_food, hc]
  | some nf =>
    have heq : (move_towards_food e r).1 =
        (find_best_move_towards
          { r with nearest_food := some nf.id } nf.x nf.y).1 := by
      simp [move_towards_food, hc]
    rw [heq]
    exact find_best_move_unit _ _ _

/-- The move of the target-selection branch is `(0, 0)` or a compass
direction. -/
lemma movement_branch_move (e : Env) (r : RabbitState) :
    (movement_branch e r).1 = (0, 0) ∨
    (movement_branch e r).1 ∈ move_locations := by
  by_cases hfed : (is_fed r && decide (r.breeding_timeout ≤ 0)) = true
  · simp only [movement_branch, if_pos hfed]
    exact move_to_breed_move e r
  · by_cases ht : r.breeding_timeout > 0
    · simp only [movement_branch, if_neg hfed, if_pos ht]
      exact move_towards_food_move e _
    · simp only [movement_branch, if_neg hfed, if_neg ht]
      exact move_towards_food_move e r

/-- Every compass direction is a unit step on both axes. -/
lemma move_component_range :
    ∀ m ∈ move_locations,
      (m.1 = -1 ∨ m.1 = 0 ∨ m.1 = 1) ∧ (m.2 = -1 ∨ m.2 = 0 ∨ m.2 = 1) := by
  decide

/-- The random fallback always picks a compass direction. -/
lemma getD_move_locations_mem (i : ℕ) :
    move_locations.getD (i % 8) (0, 0) ∈ move_locations := by
  have h8 : ∀ j, j < 8 → move_locations.getD j (0, 0) ∈ move_locations := by decide
  exact h8 (i % 8) (Nat.mod_lt i (by norm_num))

/-- The position returned by `handle_movement` is the current position plus
a boundary-adjusted unit step. -/
lemma handle_movement_position (e : Env) (r : RabbitState) (i : ℕ) :
    ∃ dx dy : ℤ, (dx = -1 ∨ dx = 0 ∨ dx = 1) ∧ (dy = -1 ∨ dy = 0 ∨ dy = 1) ∧
      (handle_movement e r i).1 =
        (r.x + (adjust_move_if_outside_grid e.grid_size (r.x + dx) (r.y + dy)
           dx dy).1,
         r.y + (adjust_move_if_outside_grid e.grid_size (r.x + dx) (r.y + dy)
           dx dy).2) := by
  obtain ⟨bt, cp, nf, mt, hm⟩ := movement_branch_rabbit_cases e r
  have hx : (movement_branch e r).2.x = r.x := by rw [hm]
  have hy : (movement_branch e r).2.y = r.y := by rw [hm]
  have hgoal : (handle_movement e r i).1 =
      (let mv := (movement_branch e r).1
       let r1 := (movement_branch e r).2
       let mv1 := if mv.1 = 0 ∧ mv.2 = 0 then move_locations.getD (i % 8) (0, 0)
                  else mv
       let mv2 := adjust_move_if_outside_grid e.grid_size (r1.x + mv1.1)
         (r1.y + mv1.2) mv1.1 mv1.2
       (r1.x + mv2.1, r1.y + mv2.2)) := rfl
  by_cases hz : (movement_branch e r).1.1 = 0 ∧ (movement_branch e r).1.2 = 0
  · have hmem := getD_move_locations_mem i
    have hrange := move_component_range _ hmem
    refine ⟨(move_locations.getD (i % 8) (0, 0)).1,
      (move_locations.getD (i % 8) (0, 0)).2, hrange.1, hrange.2, ?_⟩
    rw [hgoal]
    simp only [if_pos hz, hx, hy]
  · rcases movement_branch_move e r with h0 | hmem
    · exact absurd (by rw [h0]; exact ⟨rfl, rfl⟩) hz
    · have hrange := move_component_range _ hmem
      refine ⟨(movement_branch e r).1.1, (movement_branch e r).1.2, hrange.1,
        hrange.2, ?_⟩
      rw [hgoal]
      simp only [if_neg hz, hx, hy]

/-! ## C6 — reflective boundary -/

/-- On a grid of size at least 2, a boundary-adjusted unit step from an
in-bounds position stays in bounds, and the adjustment inverts exactly the
axis whose tentative coordinate left the grid. -/
lemma adjust_in_bounds (g x y dx dy : ℤ) (hg : 2 ≤ g)
    (hx0 : 0 ≤ x) (hx1 : x < g) (hy0 : 0 ≤ y) (hy1 : y < g)
    (hdx : dx = -1 ∨ dx = 0 ∨ dx = 1) (hdy : dy = -1 ∨ dy = 0 ∨ dy = 1) :
    0 ≤ x + (adjust_move_if_outside_grid g (x + dx) (y + dy) dx dy).1 ∧
    x + (adjust_move_if_outside_grid g (x + dx) (y + dy) dx dy).1 < g ∧
    0 ≤ y + (adjust_move_if_outside_grid g (x + dx) (y + dy) dx dy).2 ∧
    y + (adjust_move_if_outside_grid g (x + dx) (y + dy) dx dy).2 < g := by
  dsimp only [adjust_move_if_outside_grid]
  split_ifs <;> refine ⟨?_, ?_, ?_, ?_⟩ <;> omega

/-- C6 (counterexample): on a grid of size 1 the reflection is not
sufficient: the lone cell is `(0, 0)`, a tentative move `dx = 1` leaves the
grid, the adjustment inverts it to `-1`, and the applied position `-1` is
out of bounds again.  `handle_movement` for a lone rabbit on such a grid
(random direction index 2, the unit step `(1, 0)`) produces the
out-of-bounds position `(-1, 0)`. -/
theorem reflective_boundary_grid_one_cex :
    adjust_move_if_outside_grid 1 (0 + 1) (0 + 0) 1 0 = (-1, 0) ∧
    (0 + -1 : ℤ) < 0 ∧
    (handle_movement gridOneEnv scenarioRabbit 2).1 = (-1, 0) := by
  decide

/-- C6 (amended): provided the grid has size at least 2, a tentative unit
move leaving `[0, grid_size)` on an axis has that axis inverted (and an
in-range axis kept), and the reflection suffices: from any in-bounds
position, the position `handle_movement` produces — through any of its
branches and any random choice — is again within `[0, grid_size)` on both
axes. -/
theorem reflective_boundary_in_bounds :
    (∀ g x y dx dy : ℤ, 2 ≤ g →
       0 ≤ x → x < g → 0 ≤ y → y < g →
       (dx = -1 ∨ dx = 0 ∨ dx = 1) → (dy = -1 ∨ dy = 0 ∨ dy = 1) →
       ((x + dx < 0 ∨ x + dx ≥ g) →
          (adjust_move_if_outside_grid g (x + dx) (y + dy) dx dy).1 = -dx) ∧
       (¬ (x + dx < 0 ∨ x + dx ≥ g) →
          (adjust_move_if_outside_grid g (x + dx) (y + dy) dx dy).1 = dx) ∧
       0 ≤ x + (adjust_move_if_outside_grid g (x + dx) (y + dy) dx dy).1 ∧
       x + (adjust_move_if_outside_grid g (x + dx) (y + dy) dx dy).1 < g ∧
       0 ≤ y + (adjust_move_if_outside_grid g (x + dx) (y + dy) dx dy).2 ∧
       y + (adjust_move_if_outside_grid g (x + dx) (y + dy) dx dy).2 < g) ∧
    (∀ (e : Env) (r : RabbitState) (i : ℕ), 2 ≤ e.grid_size →
       0 ≤ r.x → r.x < e.grid_size → 0 ≤ r.y → r.y < e.grid_size →
       0 ≤ (handle_movement e r i).1.1 ∧
       (handle_movement e r i).1.1 < e.grid_size ∧
       0 ≤ (handle_movement e r i).1.2 ∧
       (handle_movement e r i).1.2 < e.grid_size) := by
  constructor
  · intro g x y dx dy hg hx0 hx1 hy0 hy1 hdx hdy
    have hb := adjust_in_bounds g x y dx dy hg hx0 hx1 hy0 hy1 hdx hdy
    refine ⟨?_, ?_, hb.1, hb.2.1, hb.2.2.1, hb.2.2.2⟩
    · intro hout
      dsimp only [adjust_move_if_outside_grid]
      rw [if_pos (by omega)]
      omega
    · intro hin
      dsimp only [adjust_move_if_outside_grid]
      rw [if_neg (by omega)]
  · intro e r i hg hx0 hx1 hy0 hy1
    obtain ⟨dx, dy, hdx, hdy, hpos⟩ := handle_movement_position e r i
    rw [hpos]
    have hb := adjust_in_bounds e.grid_size r.x r.y dx dy hg hx0 hx1 hy0 hy1 hdx hdy
    exact ⟨hb.1, hb.2.1, hb.2.2.1, hb.2.2.2⟩

/-- C6 witness: the amended theorem applied on the 10-grid at position
`(0, 5)` with the diagonal step `(-1, 1)` (x reflected, y kept), and to a
concrete `handle_movement` tick of the scenario rabbit. -/
theorem reflective_boundary_in_bounds_witness :
    ((2 ≤ (10 : ℤ)) ∧
     (((0 : ℤ) + -1 < 0 ∨ (0 : ℤ) + -1 ≥ 10) →
        (adjust_move_if_outside_grid 10 (0 + -1) (5 + 1) (-1) 1).1 = -(-1)) ∧
     ((¬ ((0 : ℤ) + -1 < 0 ∨ (0 : ℤ) + -1 ≥ 10)) →
        (adjust_move_if_outside_grid 10 (0 + -1) (5 + 1) (-1) 1).1 = -1) ∧
     0 ≤ (0 : ℤ) + (adjust_move_if_outside_grid 10 (0 + -1) (5 + 1) (-1) 1).1 ∧
     (0 : ℤ) + (adjust_move_if_outside_grid 10 (0 + -1) (5 + 1) (-1) 1).1 < 10 ∧
     0 ≤ (5 : ℤ) + (adjust_move_if_outside_grid 10 (0 + -1) (5 + 1) (-1) 1).2 ∧
     (5 : ℤ) + (adjust_move_if_outside_grid 10 (0 + -1) (5 + 1) (-1) 1).2 < 10) ∧
    (0 ≤ (handle_movement scenarioEnv scenarioRabbit 0).1.1 ∧
     (handle_movement scenarioEnv scenarioRabbit 0).1.1 < scenarioEnv.grid_size ∧
     0 ≤ (handle_movement scenarioEnv scenarioRabbit 0).1.2 ∧
     (handle_movement scenarioEnv scenarioRabbit 0).1.2 < scenarioEnv.grid_size) :=
  ⟨⟨by decide,
    (reflective_boundary_in_bounds.1 10 0 5 (-1) 1 (by decide) (by decide) (by decide)
      (by decide) (by decide) (by decide) (by decide)).1,
    (reflective_boundary_in_bounds.1 10 0 5 (-1) 1 (by decide) (by decide) (by decide)
      (by decide) (by decide) (by decide) (by decide)).2.1,
    (reflective_boundary_in_bounds.1 10 0 5 (-1) 1 (by decide) (by decide) (by decide)
      (by decide) (by decide) (by decide) (by decide)).2.2.1,
    (reflective_boundary_in_bounds.1 10 0 5 (-1) 1 (by decide) (by decide) (by decide)
      (by decide) (by decide) (by decide) (by decide)).2.2.2.1,
    (reflective_boundary_in_bounds.1 10 0 5 (-1) 1 (by decide) (by decide) (by decide)
      (by decide) (by decide) (by decide) (by decide)).2.2.2.2.1,
    (reflective_boundary_in_bounds.1 10 0 5 (-1) 1 (by decide) (by decide) (by decide)
      (by decide) (by decide) (by decide) (by decide)).2.2.2.2.2⟩,
   reflective_boundary_in_bounds.2 scenarioEnv scenarioRabbit 0 (by decide) (by decide)
     (by decide) (by decide) (by decide)⟩

/-! ## C10 — breeding cooldown and partner eligibility -/

/-- C10: on a tick beginning with a positive breeding cooldown the movement
handler decrements the cooldown by exactly `breeding_reset_speed` and does
not scan for partners (the partner reference is untouched); a rabbit that
is not fed never scans for partners either; on a tick beginning fed with
expired cooldown the handler scans for partners, not food (the cooldown and
the food reference are untouched); and a rabbit is an eligible partner
exactly when it is fed and its cooldown is at most 0. -/
theorem breeding_cooldown_and_eligibility :
    (∀ (e : Env) (r : RabbitState) (i : ℕ), r.breeding_timeout > 0 →
       (handle_movement e r i).2.breeding_timeout =
         r.breeding_timeout - r.breeding_reset_speed ∧
       (handle_movement e r i).2.chosen_partner = r.chosen_partner) ∧
    (∀ (e : Env) (r : RabbitState) (i : ℕ), is_fed r = false →
       (handle_movement e r i).2.chosen_partner = r.chosen_partner) ∧
    (∀ (e : Env) (r : RabbitState) (i : ℕ), is_fed r = true →
       r.breeding_timeout ≤ 0 →
       (handle_movement e r i).2.breeding_timeout = r.breeding_timeout ∧
       (handle_movement e r i).2.nearest_food = r.nearest_food) ∧
    (∀ p : RabbitState, can_breed_with p = true ↔
       (p.hunger ≤ p.hunger_to_breed ∧ p.breeding_timeout ≤ 0)) := by
  refine ⟨?_, ?_, ?_, ?_⟩
  · intro e r i ht
    have hc : ¬ ((is_fed r && decide (r.breeding_timeout ≤ 0)) = true) := by
      simp only [Bool.and_eq_true, decide_eq_true_eq]
      rintro ⟨-, hle⟩
      exact absurd ht (not_lt.mpr hle)
    rw [handle_movement_rabbit]
    simp only [movement_branch, if_neg hc, if_pos ht]
    rcases move_towards_food_rabbit e
        { r with breeding_timeout := r.breeding_timeout - r.breeding_reset_speed }
        with h | ⟨fid, h⟩ <;> rw [h] <;> exact ⟨rfl, rfl⟩
  · intro e r i hf
    have hc : ¬ ((is_fed r && decide (r.breeding_timeout ≤ 0)) = true) := by
      simp only [Bool.and_eq_true, decide_eq_true_eq, hf]
      rintro ⟨hcontra, -⟩
      exact Bool.noConfusion hcontra
    rw [handle_movement_rabbit]
    by_cases ht : r.breeding_timeout > 0
    · simp only [movement_branch, if_neg hc, if_pos ht]
      rcases move_towards_food_rabbit e
          { r with breeding_timeout := r.breeding_timeout - r.breeding_reset_speed }
          with h | ⟨fid, h⟩ <;> rw [h]
    · simp only [movement_branch, if_neg hc, if_neg ht]
      rcases move_towards_food_rabbit e r with h | ⟨fid, h⟩ <;> rw [h]
  · intro e r i hf ht
    have hc : (is_fed r && decide (r.breeding_timeout ≤ 0)) = true := by
      simp only [Bool.and_eq_true, decide_eq_true_eq]
      exact ⟨hf, ht⟩
    rw [handle_movement_rabbit]
    simp only [movement_branch, if_pos hc]
    rcases move_to_breed_rabbit e r with h | ⟨pid, h⟩ <;> rw [h] <;> exact ⟨rfl, rfl⟩
  · intro p
    simp [can_breed_with, is_fed, Bool.and_eq_true]

/-- C10 witness: the cooldown decrement on a rabbit with cooldown 3, the
breed-branch conjunct on the (fed) scenario rabbit, and the eligibility of
a fed, off-cooldown partner. -/
theorem breeding_cooldown_and_eligibility_witness :
    (cooldownRabbit.breeding_timeout > 0 ∧
     (handle_movement scenarioEnv cooldownRabbit 0).2.breeding_timeout =
       cooldownRabbit.breeding_timeout - cooldownRabbit.breeding_reset_speed ∧
     (handle_movement scenarioEnv cooldownRabbit 0).2.chosen_partner =
       cooldownRabbit.chosen_partner) ∧
    (is_fed scenarioRabbit = false ∧
     (handle_movement scenarioEnv scenarioRabbit 0).2.chosen_partner =
       scenarioRabbit.chosen_partner) ∧
    ((handle_movement scenarioFedEnv scenarioFedRabbit 0).2.breeding_timeout =
       scenarioFedRabbit.breeding_timeout ∧
     (handle_movement scenarioFedEnv scenarioFedRabbit 0).2.nearest_food =
       scenarioFedRabbit.nearest_food) ∧
    (can_breed_with scenarioFedRabbit = true ↔
       (scenarioFedRabbit.hunger ≤ scenarioFedRabbit.hunger_to_breed ∧
        scenarioFedRabbit.breeding_timeout ≤ 0)) :=
  ⟨⟨by decide,
    breeding_cooldown_and_eligibility.1 scenarioEnv cooldownRabbit 0 (by decide)⟩,
   ⟨by decide,
    breeding_cooldown_and_eligibility.2.1 scenarioEnv scenarioRabbit 0 (by decide)⟩,
   breeding_cooldown_and_eligibility.2.2.1 scenarioFedEnv scenarioFedRabbit 0
     (by decide) (by decide),
   breeding_cooldown_and_eligibility.2.2.2 scenarioFedRabbit⟩

/-! ## C5 — the hunger accrual/consumption law -/

/-- A successful `consume_food` reduces the hunger by exactly the food's
nutrition and clears the food reference. -/
lemma consume_food_ok (e : Env) (r : RabbitState) (f : FoodState)
    (p : Env × RabbitState) (h : consume_food e r f = Except.ok p) :
    p.2 = { r with hunger := r.hunger - f.nutrition, nearest_food := none } ∧
    p.1.eaten_food = e.eaten_food + 1 := by
  simp only [consume_food] at h
  split at h
  · injection h with h
    rw [← h]
    exact ⟨rfl, rfl⟩
  · exact absurd h (by simp)

/-- The food arm of the interaction changes the hunger by exactly the
consumed nutrition (and only then), and touches no other hunger-related
field. -/
lemma handle_interaction_food_hunger (e : Env) (r : RabbitState)
    (e3 : Env) (r3 : RabbitState) (c : Option ℚ)
    (h : handle_interaction_food e r = Except.ok (e3, r3, c)) :
    r3.hunger = r.hunger - (c.getD 0) ∧
    r3.base_hunger_factor = r.base_hunger_factor ∧
    r3.hunger_fatigue = r.hunger_fatigue := by
  simp only [handle_interaction_food] at h
  split at h
  · rename_i nf heq
    split at h
    · split at h
      · exact absurd h (by simp)
      · rename_i e1 r1 heq2
        injection h with h
        injection h with hA h
        injection h with hB hC
        have hr1 : r1 =
            { r with hunger := r.hunger - nf.nutrition, nearest_food := none } :=
          (consume_food_ok e r nf (e1, r1) heq2).1
        rw [← hB, ← hC, hr1]
        exact ⟨by simp, rfl, rfl⟩
    · injection h with h
      injection h with hA h
      injection h with hB hC
      rw [← hB, ← hC]
      exact ⟨by simp, rfl, rfl⟩
  · injection h with h
    injection h with hA h
    injection h with hB hC
    rw [← hB, ← hC]
    exact ⟨by simp, rfl, rfl⟩

/-- The interaction step changes the hunger by exactly the consumed
nutrition: breeding and the no-interaction paths leave it alone. -/
lemma handle_interaction_hunger (e : Env) (r : RabbitState) (μ : ℕ → ℚ)
    (e3 : Env) (r3 : RabbitState) (c : Option ℚ)
    (h : handle_interaction e r μ = Except.ok (e3, r3, c)) :
    r3.hunger = r.hunger - (c.getD 0) ∧
    r3.base_hunger_factor = r.base_hunger_factor ∧
    r3.hunger_fatigue = r.hunger_fatigue := by
  simp only [handle_interaction] at h
  split at h
  · split at h
    · rename_i cp heq
      split at h
      · injection h with h
        injection h with hA h
        injection h with hB hC
        rw [← hB, ← hC]
        refine ⟨?_, rfl, rfl⟩
        simp only [Option.getD_none, sub_zero]
        rfl
      · exact handle_interaction_food_hunger e r e3 r3 c h
    · exact handle_interaction_food_hunger e r e3 r3 c h
  · injection h with h
    injection h with hA h
    injection h with hB hC
    rw [← hB, ← hC]
    exact ⟨by simp, rfl, rfl⟩

/-- `update_hunger` adds exactly the accrual rate, whether or not the rabbit
dies of it. -/
lemma update_hunger_fields (e : Env) (r : RabbitState) :
    (update_hunger e r).2.hunger = r.hunger + r.base_hunger_factor := by
  simp only [update_hunger, remove_rabbit]
  split
  · split
    · rfl
    · rfl
  · rfl

/-- C5: over one whole successful tick of a rabbit's lifetime, the hunger
changes by exactly `base_hunger_factor` (the accrual step) minus the
nutrition of the food consumed this tick if any; in particular, with a
nonnegative accrual rate, hunger never decreases on a tick without a
consumption. -/
theorem hunger_accrual_consumption_law (e : Env) (r : RabbitState) (i : ℕ)
    (μ : ℕ → ℚ) (tr : TickResult)
    (hok : rabbit_lifetime_step e r i μ = Except.ok tr)
    (hfac : 0 ≤ r.base_hunger_factor) :
    tr.rabbit.hunger = r.hunger + r.base_hunger_factor - (tr.consumed.getD 0) ∧
    (tr.consumed = none → r.hunger ≤ tr.rabbit.hunger) := by
  obtain ⟨bt, cp, nf, mt, hm⟩ := movement_branch_rabbit_cases e r
  have hr2hunger : ({ (handle_movement e r i).2 with
      x := (handle_movement e r i).1.1,
      y := (handle_movement e r i).1.2 } : RabbitState).hunger = r.hunger := by
    rw [handle_movement_rabbit, hm]
  have hr2factor : ({ (handle_movement e r i).2 with
      x := (handle_movement e r i).1.1,
      y := (handle_movement e r i).1.2 } : RabbitState).base_hunger_factor =
      r.base_hunger_factor := by
    rw [handle_movement_rabbit, hm]
  simp only [rabbit_lifetime_step] at hok
  split at hok
  · exact absurd hok (by simp)
  · rename_i e3 r3 c heq
    injection hok with hok
    subst hok
    obtain ⟨hint1, hint2, -⟩ := handle_interaction_hunger _ _ μ e3 r3 c heq
    rw [hr2hunger] at hint1
    rw [hr2factor] at hint2
    constructor
    · show (update_hunger e3 r3).2.hunger =
        r.hunger + r.base_hunger_factor - (c.getD 0)
      rw [update_hunger_fields, hint1, hint2]
      ring
    · intro hc
      show r.hunger ≤ (update_hunger e3 r3).2.hunger
      rw [update_hunger_fields, hint1, hint2]
      have hc2 : c = none := hc
      rw [hc2]
      simp only [Option.getD_none]
      linarith

set_option maxRecDepth 40000 in
/-- C5 witness: the law applied to the first tick of the foraging scenario
(no consumption on that tick: hunger goes up by exactly the accrual). -/
theorem hunger_accrual_consumption_law_witness :
    (rabbit_lifetime_step scenarioEnv scenarioRabbit 0 (fun _ => 0) =
       Except.ok scenarioTick) ∧
    (0 ≤ scenarioRabbit.base_hunger_factor) ∧
    (scenarioTick.rabbit.hunger =
       scenarioRabbit.hunger + scenarioRabbit.base_hunger_factor -
         (scenarioTick.consumed.getD 0) ∧
     (scenarioTick.consumed = none →
        scenarioRabbit.hunger ≤ scenarioTick.rabbit.hunger)) :=
  ⟨by decide, by decide,
   hunger_accrual_consumption_law scenarioEnv scenarioRabbit 0 (fun _ => 0)
     scenarioTick (by decide) (by decide)⟩

/-! ## C7 — trait inheritance -/

/-- `inherit_with_mutation` lands within the mutation radius of the mean. -/
lemma inherit_within_ten_percent (a b m : ℚ) (hm : |m| ≤ |(a + b) / 2| / 10) :
    |inherit_with_mutation a b m - (a + b) / 2| ≤ |(a + b) / 2| / 10 := by
  simp only [inherit_with_mutation]
  rw [add_sub_cancel_left]
  exact hm

/-- C7: when each mutation draw respects the `uniform(-0.1 * mean,
0.1 * mean)` bounds of `inherit_with_mutation` (i.e. its magnitude is at
most a tenth of the magnitude of the parents' mean), every heritable trait
of the offspring lies within ±10% of the arithmetic mean of the parents'
corresponding traits; the offspring's speed is the configured base speed
regardless of either parent's speed; and `breed` registers exactly this
offspring (after refreshing the partner's cooldown) and increments the
acting rabbit's breeding count. -/
theorem breeding_trait_inheritance (e : Env) (r p : RabbitState) (μ : ℕ → ℚ)
    (h0 : |μ 0| ≤ |(r.scan_radius + p.scan_radius) / 2| / 10)
    (h1 : |μ 1| ≤ |(r.base_hunger + p.base_hunger) / 2| / 10)
    (h2 : |μ 2| ≤ |(r.base_hunger_factor + p.base_hunger_factor) / 2| / 10)
    (h3 : |μ 3| ≤ |(r.hunger_fatigue + p.hunger_fatigue) / 2| / 10)
    (h4 : |μ 4| ≤ |(r.hunger_to_breed + p.hunger_to_breed) / 2| / 10)
    (h5 : |μ 5| ≤ |(r.base_breed_timeout + p.base_breed_timeout) / 2| / 10)
    (h6 : |μ 6| ≤ |(r.breeding_reset_speed + p.breeding_reset_speed) / 2| / 10) :
    |(breed_offspring e r p μ).scan_radius - (r.scan_radius + p.scan_radius) / 2|
      ≤ |(r.scan_radius + p.scan_radius) / 2| / 10 ∧
    |(breed_offspring e r p μ).base_hunger - (r.base_hunger + p.base_hunger) / 2|
      ≤ |(r.base_hunger + p.base_hunger) / 2| / 10 ∧
    |(breed_offspring e r p μ).base_hunger_factor -
        (r.base_hunger_factor + p.base_hunger_factor) / 2|
      ≤ |(r.base_hunger_factor + p.base_hunger_factor) / 2| / 10 ∧
    |(breed_offspring e r p μ).hunger_fatigue -
        (r.hunger_fatigue + p.hunger_fatigue) / 2|
      ≤ |(r.hunger_fatigue + p.hunger_fatigue) / 2| / 10 ∧
    |(breed_offspring e r p μ).hunger_to_breed -
        (r.hunger_to_breed + p.hunger_to_breed) / 2|
      ≤ |(r.hunger_to_breed + p.hunger_to_breed) / 2| / 10 ∧
    |(breed_offspring e r p μ).base_breed_timeout -
        (r.base_breed_timeout + p.base_breed_timeout) / 2|
      ≤ |(r.base_breed_timeout + p.base_breed_timeout) / 2| / 10 ∧
    |(breed_offspring e r p μ).breeding_reset_speed -
        (r.breeding_reset_speed + p.breeding_reset_speed) / 2|
      ≤ |(r.breeding_reset_speed + p.breeding_reset_speed) / 2| / 10 ∧
    (breed_offspring e r p μ).speed = e.base_speed ∧
    (breed_offspring e r p μ).hunger = (breed_offspring e r p μ).base_hunger ∧
    (breed e r p μ).1.rabbits =
      set_partner_timeout e.rabbits p.id (calculate_breeding_timeout p) ++
        [breed_offspring e r p μ] ∧
    (breed e r p μ).2.breeding_count = r.breeding_count + 1 :=
  ⟨inherit_within_ten_percent _ _ _ h0, inherit_within_ten_percent _ _ _ h1,
   inherit_within_ten_percent _ _ _ h2, inherit_within_ten_percent _ _ _ h3,
   inherit_within_ten_percent _ _ _ h4, inherit_within_ten_percent _ _ _ h5,
   inherit_within_ten_percent _ _ _ h6, rfl, rfl, rfl, rfl⟩

/-- C7 witness: the inheritance theorem for the scenario rabbit and a
partner with different traits, with all mutation draws zero. -/
theorem breeding_trait_inheritance_witness :
    (|(0 : ℚ)| ≤ |(scenarioRabbit.scan_radius + breedPartner.scan_radius) / 2| / 10) ∧
    (breed_offspring scenarioEnv scenarioRabbit breedPartner (fun _ => 0)).speed =
      scenarioEnv.base_speed ∧
    |(breed_offspring scenarioEnv scenarioRabbit breedPartner
        (fun _ => 0)).scan_radius -
      (scenarioRabbit.scan_radius + breedPartner.scan_radius) / 2| ≤
      |(scenarioRabbit.scan_radius + breedPartner.scan_radius) / 2| / 10 ∧
    (breed scenarioEnv scenarioRabbit breedPartner (fun _ => 0)).2.breeding_count =
      scenarioRabbit.breeding_count + 1 :=
  ⟨by decide,
   (breeding_trait_inheritance scenarioEnv scenarioRabbit breedPartner (fun _ => 0)
     (by decide) (by decide) (by decide) (by decide) (by decide) (by decide)
     (by decide)).2.2.2.2.2.2.2.1,
   (breeding_trait_inheritance scenarioEnv scenarioRabbit breedPartner (fun _ => 0)
     (by decide) (by decide) (by decide) (by decide) (by decide) (by decide)
     (by decide)).1,
   (breeding_trait_inheritance scenarioEnv scenarioRabbit breedPartner (fun _ => 0)
     (by decide) (by decide) (by decide) (by decide) (by decide) (by decide)
     (by decide)).2.2.2.2.2.2.2.2.2.2⟩

end RabbitSim
